import Mathlib

/-!
# pritunl-hsm: the socket session and the file log sender

A shallow embedding of `socket/socket.go` (`Socket.getSig`, `Socket.stream`,
`Socket.Run`) and of `logger/file.go` (`fileSender.send`).

Collaborators that live outside these two files (the `authority` package,
`utils.RandStr`, the clock, the HMAC and base64 primitives, the websocket
connection, the file system's failures) enter as parameters: every theorem
holds for all of them.
-/

namespace PritunlHsm

/-! ## Values shared by both files -/

/-- A Go byte slice. -/
abbrev Bytes := List UInt8

/-- A non-nil Go `error` value. `lib` is an error produced by a collaborator,
`wrap` is `errors.Wrap(err, msg)`, the three others are the `errortypes`
structs built in the source. A Go `error` that may be nil is an
`Option GoError`. -/
inductive GoError where
  | lib (msg : String)
  | wrap (inner : GoError) (msg : String)
  | parseError (inner : GoError)
  | writeError (inner : GoError)
  | readError (inner : GoError)
  deriving DecidableEq, Repr

deriving instance DecidableEq for Except

/-- The bytes of a Go string (`[]byte(s)`). -/
def utf8 (s : String) : Bytes := s.toUTF8.toList

/-! ## socket.go: `getSig` -/

/-- The struct `Socket`. -/
structure Socket where
  Serial : String
  Token : String
  Secret : String
  Host : String
  deriving DecidableEq, Repr

/-- What `getSig` reads from outside `socket.go`: the clock, `utils.RandStr`,
and the two library primitives `hmac.New(sha512.New, key)` applied to a
message and `base64.StdEncoding.EncodeToString`. -/
structure SigEnv where
  unixNow : Int
  RandStr : Nat → Except GoError String
  hmacSha512 : Bytes → Bytes → Bytes
  base64Std : Bytes → String

/-- An `http.Header`: each key with the values added under it, in order. -/
abbrev Header := List (String × List String)

/-- The method `http.Header.Add` at a key already in canonical form (all four
keys of `getSig` are): append the value to the key's list. -/
def Header.add (h : Header) (key value : String) : Header :=
  if h.any (fun kv => kv.1 == key) then
    h.map (fun kv => if kv.1 == key then (kv.1, kv.2 ++ [value]) else kv)
  else h ++ [(key, [value])]

/-- The string `getSig` signs: `strings.Join` of the five parts with `&`. -/
def authString (s : Socket) (timestamp nonce : String) : String :=
  String.intercalate "&" [s.Token, timestamp, nonce, "GET", "/hsm"]

/-- The method `Socket.getSig` (socket.go lines 28-57). -/
def getSig (env : SigEnv) (s : Socket) : Except GoError Header :=
  let header : Header := []
  let timestamp := toString env.unixNow
  match env.RandStr 32 with
  | .error err => .error err
  | .ok nonce =>
    let rawSignature := env.hmacSha512 (utf8 s.Secret) (utf8 (authString s timestamp nonce))
    let sig := env.base64Std rawSignature
    let header := header.add "Auth-Token" s.Token
    let header := header.add "Auth-Signature" sig
    let header := header.add "Auth-Timestamp" timestamp
    let header := header.add "Auth-Nonce" nonce
    .ok header

/-- The values stored in a header under a key (`http.Header.Values`). -/
def Header.values (h : Header) (key : String) : List String :=
  match h.find? (fun kv => kv.1 == key) with
  | some kv => kv.2
  | none => []

/-! ## socket.go: `stream` -/

/-- The outcome of calling a collaborator: it returns, or it panics with a
value (rendered with `%s`). -/
inductive Call (α : Type) where
  | ret (a : α)
  | panic (r : String)
  deriving DecidableEq, Repr

/-- The struct `authority.SshResponse`, of which the source sets the one field
`Certificate`. -/
structure SshResponse (Cert : Type) where
  Certificate : Cert
  deriving DecidableEq, Repr

/-- The functions `stream` calls outside `socket.go`: four of the `authority`
package and `json.Unmarshal` into a fresh `authority.SshRequest`, which
yields the request as the call left it and the error it returned. `Req`,
`Cert` and `Payload` stand for `*authority.SshRequest`, the certificate type
and `*authority.HsmPayload`. -/
structure Collab (Req Cert Payload : Type) where
  UnmarshalPayload : String → String → Bytes →
    Call (Except GoError (String × String × Option Bytes))
  jsonUnmarshal : Bytes → Call (Req × Option GoError)
  Sign : String → Req → Call (Except GoError Cert)
  MarshalPayload : String → String → String → String → SshResponse Cert →
    Call (Except GoError Payload)
  GetStatusPayload : String → String → String → Call (Except GoError Payload)

/-- Severity of a logrus record. -/
inductive Level where
  | info
  | error
  deriving DecidableEq, Repr

/-- A value of a logrus field. -/
inductive FieldVal where
  | err (e : GoError)
  | str (s : String)
  deriving DecidableEq, Repr

/-- A record handed to logrus: `logrus.WithFields(fields).Error(msg)` or
`.Info(msg)`. -/
structure Entry where
  level : Level
  fields : List (String × FieldVal)
  msg : String
  deriving DecidableEq, Repr

/-- The record `logrus.WithFields(logrus.Fields{"error": e}).Error(msg)`. -/
def errorEntry (e : GoError) (msg : String) : Entry :=
  { level := .error, fields := [("error", .err e)], msg := msg }

/-- Go's builtin `recover`: it yields the panic value only when the goroutine
is panicking and the call is made directly by a deferred function; otherwise
it yields nil. -/
def recover (calledByDeferred : Bool) (panicking : Option String) : Option String :=
  if calledByDeferred then panicking else none

/-- A frame written (or attempted) on the websocket connection. -/
inductive Wire (Payload : Type) where
  | json (msg : Payload)
  | ping
  | close
  deriving DecidableEq, Repr

/-- The statement of `stream` through which the outbound loop returns. -/
inductive Branch where
  | queueClosed
  | write
  | ping
  | status
  | reader
  deriving DecidableEq, Repr

/-- Where the outbound loop (lines 156-189) stands.
`select`: blocked in the `select`;
`wroteJSON`: line 166 has assigned `err`, line 167 not yet tested it;
`pinged`: line 171 has assigned `err`, line 173 not yet tested it;
`statusSend p`: at the send `queue <- payload` of line 184;
`returning b`: a `return` was executed, the deferred calls are pending;
`returned b r`: `stream` has handed `r` to its caller. -/
inductive MainPc (Payload : Type) where
  | select
  | wroteJSON
  | pinged
  | statusSend (payload : Payload)
  | returning (via : Branch)
  | returned (via : Branch) (result : Option GoError)
  deriving DecidableEq, Repr

/-- Where one message handler goroutine (lines 95-146) stands.
`start m`: spawned with frame `m`;
`unmarshalled id req`: line 114 has assigned `err`, line 115 not yet tested it;
`sending resp`: at the send `queue <- resp` of line 144;
`done`: the goroutine has ended. -/
inductive HandlerPc (Req Payload : Type) where
  | start (message : Bytes)
  | unmarshalled (msgId : String) (sshReq : Req)
  | sending (resp : Payload)
  | done
  deriving DecidableEq, Repr

/-- The state of one Session after a successful dial.
`err` is the named result of `stream`, which the handler closure captures;
`queue` and `closed` are the channel `queue` (capacity 50);
`errChan` is the channel `errChan` (capacity 1);
`log` is what logrus received, `wire` what was written on the connection;
`signed` records the arguments of every call of `authority.Sign`;
`crashed` holds the value of a panic that no deferred function recovered,
which ends the process. -/
structure State (Req Payload : Type) where
  err : Option GoError
  queue : List Payload
  closed : Bool
  errChan : Option GoError
  log : List Entry
  wire : List (Wire Payload)
  signed : List (String × Req)
  main : MainPc Payload
  reader : Bool
  handlers : List (HandlerPc Req Payload)
  crashed : Option String
  deriving DecidableEq, Repr

/-- The capacity of `queue` (line 79). -/
def queueCap : Nat := 50

/-- What the environment decides at one step: which case the `select` takes
(with the result of the write it leads to), the next statement of the
outbound loop, what `conn.ReadMessage` gives the reader, or which handler
goroutine runs its next statement. -/
inductive Event where
  | recvQueue (writeResult : Option GoError)
  | tick (pingResult : Option GoError)
  | statusTick
  | recvErr
  | main
  | read (r : Call (Except GoError Bytes))
  | handler (i : Nat)
  deriving DecidableEq, Repr

variable {Req Cert Payload : Type}

/-- A send on `queue` by a goroutine: a panic when the channel is closed, the
element appended when there is room, and no step (`none`) while it is full. -/
def sendQueue (σ : State Req Payload) (p : Payload) : Option (State Req Payload) :=
  if σ.closed then some { σ with crashed := some "send on closed channel" }
  else if σ.queue.length < queueCap then some { σ with queue := σ.queue ++ [p] }
  else none

/-- One step of the outbound loop of `stream` (lines 156-189) and of its
deferred calls (lines 73, 80, 151, 154). -/
def mainStep (c : Collab Req Cert Payload) (s : Socket) (σ : State Req Payload) :
    Event → Option (State Req Payload)
  | .recvQueue writeResult =>
    match σ.main, σ.queue with
    | .select, msg :: rest =>
      some { σ with queue := rest, wire := σ.wire ++ [.json msg], err := writeResult,
                    main := .wroteJSON }
    | .select, [] =>
      if σ.closed then
        some { σ with wire := σ.wire ++ [.close], main := .returning .queueClosed }
      else none
    | _, _ => none
  | .tick pingResult =>
    match σ.main with
    | .select => some { σ with wire := σ.wire ++ [.ping], err := pingResult, main := .pinged }
    | _ => none
  | .statusTick =>
    match σ.main with
    | .select =>
      match c.GetStatusPayload s.Token s.Secret s.Serial with
      | .panic r => some { σ with crashed := some r }
      | .ret (.error e) => some { σ with err := some e, main := .returning .status }
      | .ret (.ok payload) => some { σ with main := .statusSend payload }
    | _ => none
  | .recvErr =>
    match σ.main, σ.errChan with
    | .select, some e =>
      some { σ with errChan := none, err := some e, main := .returning .reader }
    | _, _ => none
  | .main =>
    match σ.main with
    | .wroteJSON =>
      if σ.err.isSome then some { σ with main := .returning .write }
      else some { σ with main := .select }
    | .pinged =>
      if σ.err.isSome then some { σ with main := .returning .ping }
      else some { σ with main := .select }
    | .statusSend payload =>
      (sendQueue σ payload).map fun σ1 =>
        if σ1.crashed.isSome then σ1 else { σ1 with main := .select }
    | .returning via =>
      some { σ with closed := true, main := .returned via σ.err }
    | _ => none
  | _ => none

/-- One step of the reader goroutine (lines 84-94 and the spawn of line 95).
A panic of `ReadMessage` is recovered by the deferred function of lines
85-87. -/
def readerStep (σ : State Req Payload) (r : Call (Except GoError Bytes)) :
    Option (State Req Payload) :=
  if σ.reader then
    match r with
    | .panic p =>
      match recover true (some p) with
      | some _ => some { σ with reader := false }
      | none => some { σ with crashed := some p }
    | .ret (.error e) =>
      match σ.errChan with
      | none => some { σ with errChan := some e, reader := false }
      | some _ => none
    | .ret (.ok message) => some { σ with handlers := σ.handlers ++ [.start message] }
  else none

/-- The next statement group of one handler goroutine (lines 95-146), from
its program point `pc`, and the program point it reaches. The call of
`recover` at line 96 is made by the goroutine's own function, not by a
deferred one, before anything can have panicked. -/
def handlerBody (c : Collab Req Cert Payload) (s : Socket) (σ : State Req Payload) :
    HandlerPc Req Payload → Option (State Req Payload × HandlerPc Req Payload)
  | .start message =>
    let σ := match recover false none with
      | some r => { σ with log := σ.log ++ [errorEntry (.lib r) "socket: Message handle error"] }
      | none => σ
    match c.UnmarshalPayload s.Token s.Secret message with
    | .panic r => some ({ σ with crashed := some r }, .done)
    | .ret (.error e) =>
      some ({ σ with log := σ.log ++ [errorEntry e "socket: Unmarshal payload error"] }, .done)
    | .ret (.ok (msgId, msgType, data)) =>
      if msgType = "ssh_certificate" then
        match data with
        | some d =>
          match c.jsonUnmarshal d with
          | .panic r => some ({ σ with crashed := some r }, .done)
          | .ret (sshReq, e) => some ({ σ with err := e }, .unmarshalled msgId sshReq)
        | none => some (σ, .done)
      else some (σ, .done)
  | .unmarshalled msgId sshReq =>
    match σ.err with
    | some e =>
      some ({ σ with err := some (.parseError
        (.wrap e "socket: Failed to unmarshal payload data")) }, .done)
    | none =>
      let σ := { σ with signed := σ.signed ++ [(s.Serial, sshReq)] }
      match c.Sign s.Serial sshReq with
      | .panic r => some ({ σ with crashed := some r }, .done)
      | .ret (.error e) =>
        some ({ σ with log := σ.log ++ [errorEntry e "socket: Sign payload error"] }, .done)
      | .ret (.ok cert) =>
        match c.MarshalPayload msgId s.Token s.Secret "ssh_certificate"
            { Certificate := cert } with
        | .panic r => some ({ σ with crashed := some r }, .done)
        | .ret (.error e) =>
          some ({ σ with log := σ.log ++ [errorEntry e "socket: Marshal payload error"] },
            .done)
        | .ret (.ok resp) => some (σ, .sending resp)
  | .sending resp => (sendQueue σ resp).map fun σ1 => (σ1, .done)
  | .done => none

/-- Handler goroutine `i` runs its next statement group. -/
def handlerStep (c : Collab Req Cert Payload) (s : Socket) (σ : State Req Payload)
    (i : Nat) : Option (State Req Payload) :=
  match σ.handlers[i]? with
  | none => none
  | some pc =>
    (handlerBody c s σ pc).map fun r =>
      { r.1 with handlers := r.1.handlers.set i r.2 }

/-- One step of the Session: nothing runs once the process has crashed;
otherwise the event names the goroutine that moves. -/
def step (c : Collab Req Cert Payload) (s : Socket) (σ : State Req Payload)
    (ev : Event) : Option (State Req Payload) :=
  if σ.crashed.isSome then none
  else
    match ev with
    | .read r => readerStep σ r
    | .handler i => handlerStep c s σ i
    | ev => mainStep c s σ ev

/-- A run of the Session: the events in order; `none` when one of them is
not enabled. -/
def run (c : Collab Req Cert Payload) (s : Socket) (σ : State Req Payload) :
    List Event → Option (State Req Payload)
  | [] => some σ
  | ev :: evs => (step c s σ ev).bind fun σ1 => run c s σ1 evs

/-- The state in which `stream` enters its outbound loop after a successful
dial: lines 75-82 and 150-154 have run, the reader goroutine is started. -/
def connected (s : Socket) : State Req Payload :=
  { err := none, queue := [], closed := false, errChan := none,
    log := [{ level := .info, fields := [("host", .str s.Host)],
              msg := "socket: Connected to Pritunl Zero host" }],
    wire := [], signed := [], main := .select, reader := true, handlers := [],
    crashed := none }

/-- The head of `stream` (lines 59-72): the error of `getSig` is returned as
it is, a failed dial is returned wrapped in a `ParseError`; otherwise the
Session is connected. `dial` is `websocket.DefaultDialer.Dial` at the URL
`wss://<Host>/hsm`. -/
def streamHead (env : SigEnv) (dial : String → Header → Option GoError) (s : Socket) :
    Except GoError (State Req Payload) :=
  match getSig env s with
  | .error err => .error err
  | .ok header =>
    match dial ("wss://" ++ s.Host ++ "/hsm") header with
    | some err =>
      .error (.parseError (.wrap err "authority: Failed to connect to pritunl host"))
    | none => .ok (connected s)

/-! ## socket.go: `Run` -/

/-- What `Run` does that can be observed: a call of `s.stream()` (the calls
counted from 0), a record handed to logrus, a `time.Sleep` of so many
nanoseconds. -/
inductive RunEvent where
  | stream (k : Nat)
  | log (e : Entry)
  | sleep (ns : Nat)
  deriving DecidableEq, Repr

/-- The constant `time.Second`, in nanoseconds. -/
def second : Nat := 1000000000

/-- Where `Run` (lines 192-203) stands: about to call `s.stream()` (line
194), about to test the `err` it returned (line 195), about to sleep (line
201). The loop `for { ... }` has no condition, no `break` and no `return`:
there is no program point after it. -/
inductive RunPc where
  | callStream
  | testErr (err : Option GoError)
  | sleep
  deriving DecidableEq, Repr

/-- The state of `Run`: its program point, the number of calls of `stream`
made so far, and the events so far. -/
structure RunState where
  pc : RunPc
  calls : Nat
  trace : List RunEvent
  deriving DecidableEq, Repr

/-- One statement of `Run`; `outcome k` is what call `k` of `stream`
returns. -/
def runStep (outcome : Nat → Option GoError) (σ : RunState) : RunState :=
  match σ.pc with
  | .callStream =>
    { pc := .testErr (outcome σ.calls), calls := σ.calls + 1,
      trace := σ.trace ++ [.stream σ.calls] }
  | .testErr (some err) =>
    { σ with pc := .sleep,
             trace := σ.trace ++ [.log (errorEntry err "socket: Socket stream error")] }
  | .testErr none => { σ with pc := .sleep }
  | .sleep => { σ with pc := .callStream, trace := σ.trace ++ [.sleep (1 * second)] }

/-- The state in which `Run` is entered. -/
def runInit : RunState := { pc := .callStream, calls := 0, trace := [] }

/-- The state of `Run` after `n` statements. -/
def runSteps (outcome : Nat → Option GoError) : Nat → RunState
  | 0 => runInit
  | n + 1 => runStep outcome (runSteps outcome n)

/-- The events of one full iteration of the loop of `Run`, the one whose call
of `stream` is call `k` and returns `err`. -/
def iteration (k : Nat) (err : Option GoError) : List RunEvent :=
  match err with
  | some e => [.stream k, .log (errorEntry e "socket: Socket stream error"), .sleep second]
  | none => [.stream k, .sleep second]

/-- Where `Run` stands within the process: about to call `s.stream()` (line
194), inside that call, about to test the `err` it returned (line 195), or at
the `time.Sleep` of line 201. -/
inductive ProcPc where
  | callStream
  | inStream
  | testErr (err : Option GoError)
  | sleep
  deriving DecidableEq, Repr

/-- The process that runs `Run`: the program point of `Run`, the number of
calls of `stream` so far, the events of `Run` so far, the goroutines of every
Session started so far (those of a Session outlive its `stream` call), and
the value of an unrecovered panic, which has ended the process. -/
structure Proc (Req Payload : Type) where
  pc : ProcPc
  calls : Nat
  trace : List RunEvent
  sessions : List (State Req Payload)
  crashed : Option String
  deriving DecidableEq, Repr

/-- What moves in the process: `Run` executes its next statement, or a
goroutine of Session `k` makes the step `ev`. -/
inductive ProcEvent where
  | run
  | session (k : Nat) (ev : Event)
  deriving DecidableEq, Repr

/-- The process at the entry of `Run`. -/
def procInit : Proc Req Payload :=
  { pc := .callStream, calls := 0, trace := [], sessions := [], crashed := none }

/-- One step of the process. Nothing runs once a panic has ended it. `Run`
(lines 192-203) calls `stream`, whose head either fails or connects a new
Session; it leaves `stream` when the outbound loop of that Session has
returned; it logs a non-nil `err`; it sleeps one second and loops. A step of a
goroutine of Session `k` is a step of that Session, and a panic there ends
the process. `env k` and `dial k` are what call `k` of `stream` finds. -/
def procStep (env : Nat → SigEnv) (dial : Nat → String → Header → Option GoError)
    (c : Collab Req Cert Payload) (s : Socket) (π : Proc Req Payload) :
    ProcEvent → Option (Proc Req Payload)
  | .run =>
    if π.crashed.isSome then none
    else
      match π.pc with
      | .callStream =>
        match (streamHead (env π.calls) (dial π.calls) s : Except GoError (State Req Payload)) with
        | .error err =>
          some { π with pc := .testErr (some err), calls := π.calls + 1,
                        trace := π.trace ++ [.stream π.calls] }
        | .ok σ =>
          some { π with pc := .inStream, calls := π.calls + 1,
                        trace := π.trace ++ [.stream π.calls],
                        sessions := π.sessions ++ [σ] }
      | .inStream =>
        match π.sessions.getLast? with
        | some σ =>
          match σ.main with
          | .returned _ r => some { π with pc := .testErr r }
          | _ => none
        | none => none
      | .testErr (some err) =>
        some { π with pc := .sleep,
                      trace := π.trace ++ [.log (errorEntry err "socket: Socket stream error")] }
      | .testErr none => some { π with pc := .sleep }
      | .sleep => some { π with pc := .callStream, trace := π.trace ++ [.sleep (1 * second)] }
  | .session k ev =>
    if π.crashed.isSome then none
    else
      match π.sessions[k]? with
      | none => none
      | some σ =>
        (step c s σ ev).map fun σ1 =>
          { π with sessions := π.sessions.set k σ1, crashed := σ1.crashed }

/-- A run of the process: the events in order; `none` when one of them is not
enabled. -/
def procRun (env : Nat → SigEnv) (dial : Nat → String → Header → Option GoError)
    (c : Collab Req Cert Payload) (s : Socket) (π : Proc Req Payload) :
    List ProcEvent → Option (Proc Req Payload)
  | [] => some π
  | ev :: evs => (procStep env dial c s π ev).bind fun π1 => procRun env dial c s π1 evs

/-! ## logger/file.go: `fileSender.send` -/

/-- A call into the `os` package made by `send`. -/
inductive SysCall where
  | openFile (path : String)
  | stat (path : String)
  | remove (path : String)
  | rename (src dst : String)
  | close (path : String)
  | write (path : String) (msg : Bytes)
  deriving DecidableEq, Repr

/-- The file system as `send` sees it: the content of each path that exists,
and the calls made so far. -/
structure FileSys where
  files : String → Option Bytes
  calls : List SysCall

/-- The calls of `send` that the operating system makes fail, each with the
error it returns: the first `os.OpenFile`, `file.Stat`, `os.Remove`,
`os.Rename`, the second `os.OpenFile`, `file.Write`. -/
structure Faults where
  openLog : Option GoError
  statLog : Option GoError
  removeBackup : Option GoError
  renameLog : Option GoError
  reopenLog : Option GoError
  writeLog : Option GoError

/-- No call fails. -/
def noFaults : Faults :=
  { openLog := none, statLog := none, removeBackup := none, renameLog := none,
    reopenLog := none, writeLog := none }

/-- Record a call. -/
def FileSys.call (fs : FileSys) (c : SysCall) : FileSys :=
  { fs with calls := fs.calls ++ [c] }

/-- A successful `os.OpenFile(path, O_APPEND|O_WRONLY|O_CREATE, 0666)`: the
file is created empty when it does not exist. -/
def FileSys.openFile (fs : FileSys) (path : String) : FileSys :=
  { files := fun p => if p = path then some ((fs.files path).getD []) else fs.files p,
    calls := fs.calls ++ [.openFile path] }

/-- The call `os.Remove(path)`, whose error `send` ignores: the path is gone
unless the call fails. -/
def FileSys.remove (fs : FileSys) (fault : Option GoError) (path : String) : FileSys :=
  { files := fun p => if p = path ∧ fault = none then none else fs.files p,
    calls := fs.calls ++ [.remove path] }

/-- A successful `os.Rename(src, dst)`: `dst` now holds what `src` held,
whatever it held before, and `src` is gone. -/
def FileSys.rename (fs : FileSys) (src dst : String) : FileSys :=
  { files := fun p => if p = dst then fs.files src else if p = src then none else fs.files p,
    calls := fs.calls ++ [.rename src dst] }

/-- A successful `file.Write(msg)` on a file opened with `O_APPEND` at `path`. -/
def FileSys.append (fs : FileSys) (path : String) (msg : Bytes) : FileSys :=
  { files := fun p => if p = path then some ((fs.files path).getD [] ++ msg) else fs.files p,
    calls := fs.calls ++ [.write path msg] }

/-- The size in bytes that `file.Stat()` reports for the file at `path`. -/
def FileSys.size (fs : FileSys) (path : String) : Nat :=
  ((fs.files path).getD []).length

/-- Lines 66-74 of `send` and the deferred `file.Close()` of line 35. -/
def sendWrite (LogPath : String) (faults : Faults) (fs : FileSys) (msg : Bytes) :
    Option GoError × FileSys :=
  match faults.writeLog with
  | some err =>
    (some (.writeError (.wrap err "logger: Failed to write to log file")),
      (fs.call (.write LogPath msg)).call (.close LogPath))
  | none => (none, (fs.append LogPath msg).call (.close LogPath))

/-- The method `fileSender.send` (file.go lines 24-75). `LogPath` and
`LogPath2` are the constants of package `constants`, `formatPlain` is the
formatter of package `logger`; the result is the `err` returned and the file
system left behind. -/
def send (LogPath LogPath2 : String) (formatPlain : Entry → Bytes) (faults : Faults)
    (fs : FileSys) (entry : Entry) : Option GoError × FileSys :=
  let msg := formatPlain entry
  match faults.openLog with
  | some err =>
    (some (.writeError (.wrap err "logger: Failed to open log file")),
      fs.call (.openFile LogPath))
  | none =>
    let fs := fs.openFile LogPath
    match faults.statLog with
    | some err =>
      (some (.readError (.wrap err "logger: Failed to stat log file")),
        (fs.call (.stat LogPath)).call (.close LogPath))
    | none =>
      let fs := fs.call (.stat LogPath)
      if fs.size LogPath ≥ 5000000 then
        let fs := fs.remove faults.removeBackup LogPath2
        match faults.renameLog with
        | some err =>
          (some (.writeError (.wrap err "logger: Failed to rotate log file")),
            (fs.call (.rename LogPath LogPath2)).call (.close LogPath))
        | none =>
          let fs := fs.rename LogPath LogPath2
          let fs := fs.call (.close LogPath)
          match faults.reopenLog with
          | some err =>
            (some (.writeError (.wrap err "logger: Failed to open log file")),
              (fs.call (.openFile LogPath)).call (.close LogPath))
          | none =>
            let fs := fs.openFile LogPath
            sendWrite LogPath faults fs msg
      else sendWrite LogPath faults fs msg

/-! ## Predicates on Session states -/

/-- The queue is closed only once `stream` has returned; the loop never
stands in or past the `return` of the queue-closed branch; no close frame was
written. -/
def QueueInv (σ : State Req Payload) : Prop :=
  (σ.closed = true → ∃ b r, σ.main = .returned b r) ∧
  σ.main ≠ .returning .queueClosed ∧
  (∀ r, σ.main ≠ .returned .queueClosed r) ∧
  Wire.close ∉ σ.wire

/-- The outbound loop stands at the send of line 184 with the queue full and
open: the queue is `q`, the frames written are `w`, and an error the reader
had put on `errChan` is still there. -/
def Blocked (q : List Payload) (w : List (Wire Payload)) (ec : Option GoError)
    (p : Payload) (σ : State Req Payload) : Prop :=
  σ.main = .statusSend p ∧ σ.queue = q ∧ σ.closed = false ∧ σ.wire = w ∧
  ∀ e, ec = some e → σ.errChan = some e

/-- Handler goroutine `i` has ended in `σ'` and left in place everything the
Session runs on: nothing was enqueued or written, the outbound loop and the
reader stand where they stood in `σ`, both channels are as they were, and the
process has not crashed. -/
def DroppedBy (i : Nat) (σ σ' : State Req Payload) : Prop :=
  σ'.queue = σ.queue ∧ σ'.wire = σ.wire ∧ σ'.main = σ.main ∧ σ'.closed = σ.closed ∧
  σ'.errChan = σ.errChan ∧ σ'.reader = σ.reader ∧ σ'.crashed = none ∧
  σ'.handlers = σ.handlers.set i .done

/-- The events of the first `n` iterations of the loop of `Run`. -/
def iterations (outcome : Nat → Option GoError) (n : Nat) : List RunEvent :=
  (List.range n).flatMap fun k => iteration k (outcome k)

/-! ## Concrete collaborators, for evaluating the code -/

/-- A Session identity with four different fields. -/
def demoSocket : Socket :=
  { Serial := "serial", Token := "token", Secret := "secret", Host := "host" }

/-- An environment for `getSig`: a fixed clock and nonce, and stand-ins for
the two library primitives. -/
def demoEnv : SigEnv :=
  { unixNow := 1700000000
    RandStr := fun _ => .ok "nonce"
    hmacSha512 := fun key msg => key ++ msg
    base64Std := fun b => toString b.length }

/-- Collaborators over strings. `UnmarshalPayload` fails on the empty frame,
panics on frame `[0]`, decodes frames `[1]`, `[2]` and `[3]` to
`ssh_certificate` requests and every other frame to a message of another
type; `json.Unmarshal` fails on the data of frame `[2]`; `Sign` fails on the
request of frame `[3]`. -/
def demoCollab : Collab String String String :=
  { UnmarshalPayload := fun _ _ m =>
      match m with
      | [] => .ret (.error (.lib "bad envelope"))
      | [0] => .panic "boom"
      | [1] => .ret (.ok ("id1", "ssh_certificate", some [1]))
      | [2] => .ret (.ok ("id2", "ssh_certificate", some [2]))
      | [3] => .ret (.ok ("id3", "ssh_certificate", some [3]))
      | _ => .ret (.ok ("id", "other", none))
    jsonUnmarshal := fun d =>
      match d with
      | [1] => .ret ("req1", none)
      | [3] => .ret ("req3", none)
      | _ => .ret ("", some (.lib "invalid character"))
    Sign := fun serial req =>
      if req = "req3" then .ret (.error (.lib "sign failed"))
      else .ret (.ok (serial ++ "/" ++ req))
    MarshalPayload := fun msgId _ _ ty data =>
      .ret (.ok (msgId ++ ":" ++ ty ++ ":" ++ data.Certificate))
    GetStatusPayload := fun _ _ _ => .ret (.ok "status") }

/-- The collaborators of `demoCollab`, except that `MarshalPayload` fails. -/
def marshalFails : Collab String String String :=
  { demoCollab with
    MarshalPayload := fun _ _ _ _ _ => .ret (.error (.lib "marshal failed")) }

/-- The connected Session of `demoSocket` in which the reader has spawned one
handler, for frame `m`. -/
def oneFrame (m : Bytes) : State String String :=
  { connected demoSocket with handlers := [.start m] }

/-- Fifty status ticks, each followed by its enqueue, with no dequeue in
between: a run that fills the queue. -/
def fillQueue : List Event := (List.replicate 50 [Event.statusTick, Event.main]).flatten

/-- The state `fillQueue` leads to: connected, with fifty status envelopes
queued. -/
def fullState : State String String :=
  { connected demoSocket with queue := List.replicate 50 "status" }

/-- The state reached from `fullState` by a status tick, a frame handled up to
its send, and a read error: the loop stands at its own send. -/
def blockedState : State String String :=
  { fullState with
    main := .statusSend "status", signed := [("serial", "req1")], reader := false,
    handlers := [.sending "id1:ssh_certificate:serial/req1"],
    errChan := some (.lib "EOF") }

/-- The state of `oneFrame [1]` once its handler has executed line 114. -/
def afterLine114 : State String String :=
  { oneFrame [1] with handlers := [.unmarshalled "id1" "req1"] }

/-- The state `afterLine114` once the reader has spawned a handler for
another frame. -/
def otherFrameRead : State String String :=
  { afterLine114 with handlers := [.unmarshalled "id1" "req1", .start [9]] }

/-- The state `otherFrameRead` once the first handler has signed and stands
at its send. -/
def atSend : State String String :=
  { otherFrameRead with
    signed := [("serial", "req1")],
    handlers := [.sending "id1:ssh_certificate:serial/req1", .start [9]] }

/-- The state `atSend` once the outbound loop has enqueued a status
envelope. -/
def statusQueued : State String String :=
  { atSend with queue := ["status"] }

/-- The state of `oneFrame [3]` once its handler has executed line 114 and
the outbound loop has sent a ping that succeeded. -/
def pingedBetween : State String String :=
  { oneFrame [3] with handlers := [.unmarshalled "id3" "req3"], wire := [.ping] }

/-- A schedule of the process: the first Session connects; the handler of
frame `[1]` has signed and stands at its send when the ping fails; `stream`
returns, `Run` logs the error and goes to sleep; then the handler sends. -/
def leakedHandler : List ProcEvent :=
  [.run, .session 0 (.read (.ret (.ok [1]))), .session 0 (.handler 0),
   .session 0 (.handler 0), .session 0 (.tick (some (.lib "broken pipe"))),
   .session 0 .main, .session 0 .main, .run, .run, .session 0 (.handler 0)]

/-- The content of a log file of 4,999,999 bytes. -/
def filler : Bytes := List.replicate 4999999 0

/-- A log file one byte under the threshold, next to an older backup. -/
def nearlyFull : FileSys :=
  { files := fun p =>
      if p = "hsm.log" then some filler
      else if p = "hsm.log.1" then some [1] else none
    calls := [] }

/-- A formatter that renders every entry as a one-byte line. -/
def oneByteLine : Entry → Bytes := fun _ => [10]

/-- Some log entry. -/
def demoEntry : Entry := { level := .info, fields := [], msg := "started" }

/-! ## Theorems -/

/-! ### `getSig` -/

/-- On success `getSig` returns these four fields, in the order it adds them. -/
theorem getSig_eq (env : SigEnv) (s : Socket) (n : String)
    (hn : env.RandStr 32 = .ok n) :
    getSig env s = .ok [("Auth-Token", [s.Token]),
      ("Auth-Signature", [env.base64Std (env.hmacSha512 (utf8 s.Secret)
        (utf8 (s.Token ++ "&" ++ toString env.unixNow ++ "&" ++ n ++ "&GET&/hsm")))]),
      ("Auth-Timestamp", [toString env.unixNow]),
      ("Auth-Nonce", [n])] := by
  simp [getSig, hn, Header.add, authString, String.intercalate, String.intercalate.go,
    String.append_assoc]

/-- C1, as stated, fails: it is not so that the Secret is a value of no header
field. A Socket whose Token equals its Secret gets a header whose `Auth-Token`
value is the Secret. -/
theorem getSig_secret_is_header_value :
    ¬ ∀ (env : SigEnv) (s : Socket) (h : Header), getSig env s = .ok h →
      ∀ key, s.Secret ∉ h.values key := by
  intro hall
  have h := hall demoEnv { demoSocket with Token := "k", Secret := "k" } _
    (getSig_eq _ _ "nonce" rfl) "Auth-Token"
  simp [Header.values] at h

/-- C1, amended: on success the header of `getSig` has exactly the four fields
`Auth-Token = Token`, `Auth-Signature = base64(HMAC-SHA512(Secret, Token & t
& n & GET & /hsm))`, `Auth-Timestamp = t` and `Auth-Nonce = n`, with the `t`
and `n` that were signed; and the Secret enters it only as the HMAC key: the
three other values are the same for every Secret. -/
theorem getSig_header (env : SigEnv) (s : Socket) (n : String)
    (hn : env.RandStr 32 = .ok n) :
    getSig env s = .ok [("Auth-Token", [s.Token]),
      ("Auth-Signature", [env.base64Std (env.hmacSha512 (utf8 s.Secret)
        (utf8 (s.Token ++ "&" ++ toString env.unixNow ++ "&" ++ n ++ "&GET&/hsm")))]),
      ("Auth-Timestamp", [toString env.unixNow]),
      ("Auth-Nonce", [n])] ∧
    ∀ secret : String, ∃ h, getSig env { s with Secret := secret } = .ok h ∧
      h.values "Auth-Token" = [s.Token] ∧
      h.values "Auth-Timestamp" = [toString env.unixNow] ∧
      h.values "Auth-Nonce" = [n] := by
  refine ⟨getSig_eq env s n hn, fun secret => ⟨_, getSig_eq env _ n hn, ?_⟩⟩
  simp [Header.values]

/-- Witness of `getSig_header` at the demo environment and Socket. -/
theorem getSig_header_witness :
    demoEnv.RandStr 32 = .ok "nonce" ∧
    getSig demoEnv demoSocket = .ok [("Auth-Token", ["token"]),
      ("Auth-Signature", [demoEnv.base64Std (demoEnv.hmacSha512 (utf8 "secret")
        (utf8 ("token" ++ "&" ++ toString demoEnv.unixNow ++ "&" ++ "nonce" ++ "&GET&/hsm")))]),
      ("Auth-Timestamp", [toString demoEnv.unixNow]),
      ("Auth-Nonce", ["nonce"])] :=
  ⟨rfl, (getSig_header demoEnv demoSocket "nonce" rfl).1⟩

/-! ### The message handler -/

/-- An index at which a list has an element is below its length. -/
theorem lt_length_of_getElem? {α : Type} (l : List α) (i : Nat) (a : α)
    (h : l[i]? = some a) : i < l.length := by
  by_contra hge
  rw [List.getElem?_eq_none (by omega)] at h
  exact absurd h (by simp)

/-- C2, as stated, fails: the frame `[1]` decodes to an `ssh_certificate`
message whose data unmarshals and whose request `Sign` signs, yet when
`MarshalPayload` returns an error the handler ends with the queue empty: it
has logged the error and enqueued nothing (lines 137-142). And with
`MarshalPayload` succeeding, when a ping fails between lines 114 and 115 of
the handler, line 115 finds the error of the ping in `err`: the handler ends
without calling `Sign` and without enqueuing. -/
theorem handler_marshal_failure_enqueues_nothing :
    marshalFails.UnmarshalPayload demoSocket.Token demoSocket.Secret [1] =
      .ret (.ok ("id1", "ssh_certificate", some [1])) ∧
    marshalFails.jsonUnmarshal [1] = .ret ("req1", none) ∧
    marshalFails.Sign demoSocket.Serial "req1" = .ret (.ok "serial/req1") ∧
    (run marshalFails demoSocket (connected demoSocket)
        [.read (.ret (.ok [1])), .handler 0, .handler 0]).map
      (fun σ => (σ.queue, σ.handlers, σ.log.drop 1)) =
      some ([], [.done],
        [errorEntry (.lib "marshal failed") "socket: Marshal payload error"]) ∧
    (run demoCollab demoSocket (connected demoSocket)
        [.read (.ret (.ok [1])), .handler 0, .tick (some (.lib "broken pipe")),
         .handler 0]).map
      (fun σ => (σ.queue, σ.signed, σ.handlers, σ.log.drop 1)) =
      some ([], [], [.done], []) :=
  ⟨rfl, rfl, rfl, by decide, by decide⟩

/-- A handler in which `UnmarshalPayload` panics takes the process down: the
call of `recover` at line 96 has already returned nil, nothing is logged, and
no goroutine makes another step. -/
theorem handler_panic_unrecovered (c : Collab Req Cert Payload) (s : Socket)
    (σ : State Req Payload) (i : Nat) (m : Bytes) (r : String)
    (hc : σ.crashed = none) (hi : σ.handlers[i]? = some (.start m))
    (hp : c.UnmarshalPayload s.Token s.Secret m = .panic r) :
    ∃ σ', step c s σ (.handler i) = some σ' ∧ σ'.crashed = some r ∧ σ'.log = σ.log ∧
      ∀ ev, step c s σ' ev = none := by
  simp [step, hc, handlerStep, hi, handlerBody, recover, hp]

/-- C3 fails on the code. A frame on which `UnmarshalPayload` panics ends the
process: the panic is not recovered, no `Message handle error` record is
logged, and no further event, a read of the reader included, is possible. So
does a handler whose send finds the queue closed, after `stream` returned. -/
theorem handler_panic_crashes_process :
    (run demoCollab demoSocket (connected demoSocket)
        [.read (.ret (.ok [0])), .handler 0]).map
      (fun σ => (σ.crashed, σ.log.drop 1, σ.reader)) = some (some "boom", [], true) ∧
    (∀ ev, run demoCollab demoSocket (connected demoSocket)
        [.read (.ret (.ok [0])), .handler 0, ev] = none) ∧
    (run demoCollab demoSocket (connected demoSocket)
        [.read (.ret (.ok [1])), .handler 0, .handler 0, .tick (some (.lib "broken pipe")),
         .main, .main, .handler 0]).map
      (fun σ => (σ.main, σ.crashed, σ.log.drop 1)) =
      some (.returned .ping (some (.lib "broken pipe")), some "send on closed channel", []) := by
  refine ⟨by decide, fun ev => ?_, by decide⟩
  rfl

/-- A handler whose inner `json.Unmarshal` fails logs nothing, and leaves in
the named result `err` of `stream` a `ParseError` built from it (when no other
goroutine assigns `err` between its lines 114 and 115). -/
theorem handler_inner_unmarshal_failure (c : Collab Req Cert Payload) (s : Socket)
    (σ : State Req Payload) (i : Nat) (m d : Bytes) (msgId : String) (req : Req) (e : GoError)
    (hc : σ.crashed = none) (hi : σ.handlers[i]? = some (.start m))
    (hdec : c.UnmarshalPayload s.Token s.Secret m =
      .ret (.ok (msgId, "ssh_certificate", some d)))
    (hjson : c.jsonUnmarshal d = .ret (req, some e)) :
    ∃ σ', run c s σ [.handler i, .handler i] = some σ' ∧ σ'.log = σ.log ∧
      σ'.queue = σ.queue ∧
      σ'.err = some (.parseError (.wrap e "socket: Failed to unmarshal payload data")) := by
  have hlt := lt_length_of_getElem? _ _ _ hi
  simp [run, step, hc, handlerStep, hi, handlerBody, recover, hdec, hjson,
    List.getElem?_set, hlt]

/-- C5 fails on the code. For frame `[2]`, whose outer envelope decodes to
`ssh_certificate` with data that `json.Unmarshal` rejects, the handler ends
with nothing enqueued, but it has handed no record to logrus (the log holds
only the connect record), and it has overwritten the named result `err` of
`stream`, nil until then, with a `ParseError`. -/
theorem handler_inner_unmarshal_failure_unlogged :
    (connected demoSocket : State String String).err = none ∧
    (run demoCollab demoSocket (connected demoSocket)
        [.read (.ret (.ok [2])), .handler 0, .handler 0]).map
      (fun σ => (σ.log.drop 1, σ.err, σ.queue, σ.handlers)) =
      some ([],
        some (.parseError
          (.wrap (.lib "invalid character") "socket: Failed to unmarshal payload data")),
        [], [.done]) := by
  decide

/-! ### The outbound loop -/

/-- When no other goroutine runs in between, a failed write, a failed ping and
a received reader error each make `stream` return that very error, with no
further frame written. -/
theorem outbound_error_returned_undisturbed (c : Collab Req Cert Payload) (s : Socket)
    (σ : State Req Payload) (e : GoError) (hc : σ.crashed = none) (hsel : σ.main = .select) :
    (∀ msg rest, σ.queue = msg :: rest →
      ∃ σ', run c s σ [.recvQueue (some e), .main, .main] = some σ' ∧
        σ'.main = .returned .write (some e) ∧ σ'.wire = σ.wire ++ [.json msg]) ∧
    (∃ σ', run c s σ [.tick (some e), .main, .main] = some σ' ∧
      σ'.main = .returned .ping (some e) ∧ σ'.wire = σ.wire ++ [.ping]) ∧
    (σ.errChan = some e →
      ∃ σ', run c s σ [.recvErr, .main] = some σ' ∧
        σ'.main = .returned .reader (some e) ∧ σ'.wire = σ.wire) := by
  refine ⟨?_, ?_, ?_⟩
  · intro msg rest hq
    simp [run, step, hc, mainStep, hsel, hq]
  · simp [run, step, hc, mainStep, hsel]
  · intro he
    simp [run, step, hc, mainStep, hsel, he]

/-- C6 fails on the code. First run: the write of a status envelope fails with
`write failed`; before line 167 tests `err`, the handler of frame `[1]`
executes line 114, which assigns nil to the same `err`; the loop then finds
`err` nil, does not return, and goes on to send a ping. Second run: the loop
receives the reader error `EOF` and executes `return`; the handler of frame
`[1]` executes line 114 before the result is handed over, and `stream` returns
nil. -/
theorem outbound_error_lost_to_handler :
    (run demoCollab demoSocket (connected demoSocket)
        [.statusTick, .main, .read (.ret (.ok [1])), .recvQueue (some (.lib "write failed")),
         .handler 0, .main, .tick none]).map
      (fun σ => (σ.main, σ.err, σ.wire)) =
      some (.pinged, none, [.json "status", .ping]) ∧
    (run demoCollab demoSocket (connected demoSocket)
        [.read (.ret (.ok [1])), .read (.ret (.error (.lib "EOF"))), .recvErr, .handler 0,
         .main]).map
      (fun σ => σ.main) = some (.returned .reader none) := by
  decide

/-! ### Invariants of the Session -/

/-- A send on the queue touches only the queue, or crashes on a closed one. -/
theorem sendQueue_frame (σ σ1 : State Req Payload) (p : Payload)
    (h : sendQueue σ p = some σ1) :
    σ1.closed = σ.closed ∧ σ1.main = σ.main ∧ σ1.wire = σ.wire ∧ σ1.errChan = σ.errChan ∧
    σ1.handlers = σ.handlers ∧
    (σ.closed = false → σ1.crashed = σ.crashed ∧ σ.queue.length < queueCap ∧
      σ1.queue = σ.queue ++ [p]) := by
  unfold sendQueue at h
  split at h
  · cases h; simp_all
  · split at h
    · cases h; simp_all
    · cases h

/-- A handler statement leaves the loop, the connection, `errChan` and the
queue state alone, except that it may append to a queue with room. -/
theorem handlerBody_frame (c : Collab Req Cert Payload) (s : Socket)
    (σ σ1 : State Req Payload) (pc pc1 : HandlerPc Req Payload)
    (h : handlerBody c s σ pc = some (σ1, pc1)) :
    σ1.closed = σ.closed ∧ σ1.main = σ.main ∧ σ1.wire = σ.wire ∧ σ1.errChan = σ.errChan ∧
    σ1.handlers = σ.handlers ∧
    (σ.closed = false → σ1.queue = σ.queue ∨ σ.queue.length < queueCap) := by
  cases pc with
  | start message =>
    simp only [handlerBody, recover] at h
    split at h
    · cases h; simp
    · cases h; simp
    · split at h
      · split at h
        · split at h
          · cases h; simp
          · cases h; simp
        · cases h; simp
      · cases h; simp
  | unmarshalled msgId sshReq =>
    simp only [handlerBody] at h
    split at h
    · cases h; simp
    · split at h
      · cases h; simp
      · cases h; simp
      · split at h
        · cases h; simp
        · cases h; simp
        · cases h; simp
  | sending resp =>
    simp only [handlerBody, Option.map_eq_some'] at h
    obtain ⟨σ2, h2, h3⟩ := h
    cases h3
    have := sendQueue_frame _ _ _ h2
    refine ⟨this.1, this.2.1, this.2.2.1, this.2.2.2.1, this.2.2.2.2.1, fun hcl => ?_⟩
    exact Or.inr (this.2.2.2.2.2 hcl).2.1
  | done => simp [handlerBody] at h


/-- A handler step leaves the loop, the connection, `errChan` and the queue
state alone, except that it may append to a queue with room. -/
theorem handlerStep_frame (c : Collab Req Cert Payload) (s : Socket)
    (σ σ1 : State Req Payload) (i : Nat) (h : handlerStep c s σ i = some σ1) :
    σ1.closed = σ.closed ∧ σ1.main = σ.main ∧ σ1.wire = σ.wire ∧ σ1.errChan = σ.errChan ∧
    (σ.closed = false → σ1.queue = σ.queue ∨ σ.queue.length < queueCap) := by
  unfold handlerStep at h
  split at h
  · cases h
  · simp only [Option.map_eq_some'] at h
    obtain ⟨⟨σ2, pc2⟩, h2, h3⟩ := h
    cases h3
    have := handlerBody_frame c s σ σ2 _ pc2 h2
    exact ⟨this.1, this.2.1, this.2.2.1, this.2.2.2.1, this.2.2.2.2.2⟩

/-- A reader step leaves the loop, the connection and the queue alone, and
never removes an error from `errChan`. -/
theorem readerStep_frame (σ σ1 : State Req Payload) (r : Call (Except GoError Bytes))
    (h : readerStep σ r = some σ1) :
    σ1.closed = σ.closed ∧ σ1.main = σ.main ∧ σ1.wire = σ.wire ∧ σ1.queue = σ.queue ∧
    (∀ e, σ.errChan = some e → σ1.errChan = some e) := by
  unfold readerStep at h
  split at h
  · split at h
    · simp only [recover] at h
      split at h
      · cases h; simp
      · cases h; simp
    · split at h
      · cases h; simp_all
      · cases h
    · cases h; simp
  · cases h

/-- Every step of the outbound loop preserves `QueueInv`. -/
theorem mainStep_QueueInv (c : Collab Req Cert Payload) (s : Socket)
    (σ σ1 : State Req Payload) (ev : Event) (h : mainStep c s σ ev = some σ1)
    (hinv : QueueInv σ) : QueueInv σ1 := by
  obtain ⟨h1, h2, h3, h4⟩ := hinv
  cases ev with
  | recvQueue w =>
    simp only [mainStep] at h
    split at h
    · cases h
      rename_i hm _
      refine ⟨?_, by simp, by simp, by simpa using h4⟩
      intro hcl
      obtain ⟨b, r, hb⟩ := h1 hcl
      rw [hm] at hb; cases hb
    · split at h
      · rename_i hm _ hcl
        obtain ⟨b, r, hb⟩ := h1 hcl
        rw [hm] at hb; cases hb
      · cases h
    · cases h
  | tick w =>
    simp only [mainStep] at h
    split at h
    · cases h
      rename_i hm
      refine ⟨?_, by simp, by simp, by simpa using h4⟩
      intro hcl
      obtain ⟨b, r, hb⟩ := h1 hcl
      rw [hm] at hb; cases hb
    · cases h
  | statusTick =>
    simp only [mainStep] at h
    split at h
    · rename_i hm
      have hopen : σ.closed = true → False := by
        intro hcl
        obtain ⟨b, r, hb⟩ := h1 hcl
        rw [hm] at hb; cases hb
      split at h
      · cases h; exact ⟨by simpa [hm] using hopen, by simp [hm], by simp [hm], by simpa using h4⟩
      · cases h; exact ⟨by simpa using hopen, by simp, by simp, by simpa using h4⟩
      · cases h; exact ⟨by simpa using hopen, by simp, by simp, by simpa using h4⟩
    · cases h
  | recvErr =>
    simp only [mainStep] at h
    split at h
    · cases h
      rename_i hm _
      refine ⟨?_, by simp, by simp, by simpa using h4⟩
      intro hcl
      obtain ⟨b, r, hb⟩ := h1 hcl
      rw [hm] at hb; cases hb
    · cases h
  | main =>
    simp only [mainStep] at h
    split at h
    · rename_i hm
      have hopen : σ.closed = true → False := by
        intro hcl
        obtain ⟨b, r, hb⟩ := h1 hcl
        rw [hm] at hb; cases hb
      split at h
      · cases h; exact ⟨by simpa using hopen, by simp, by simp, by simpa using h4⟩
      · cases h; exact ⟨by simpa using hopen, by simp, by simp, by simpa using h4⟩
    · rename_i hm
      have hopen : σ.closed = true → False := by
        intro hcl
        obtain ⟨b, r, hb⟩ := h1 hcl
        rw [hm] at hb; cases hb
      split at h
      · cases h; exact ⟨by simpa using hopen, by simp, by simp, by simpa using h4⟩
      · cases h; exact ⟨by simpa using hopen, by simp, by simp, by simpa using h4⟩
    · rename_i p hm
      have hopen : σ.closed = false := by
        cases hcl : σ.closed
        · rfl
        · obtain ⟨b, r, hb⟩ := h1 hcl
          rw [hm] at hb; cases hb
      simp only [Option.map_eq_some'] at h
      obtain ⟨σ2, hs, h5⟩ := h
      have hf := sendQueue_frame _ _ _ hs
      have hcr := (hf.2.2.2.2.2 hopen)
      split at h5
      · cases h5
        refine ⟨?_, by rw [hf.2.1, hm]; simp, by rw [hf.2.1, hm]; simp, by rw [hf.2.2.1]; exact h4⟩
        rw [hf.1, hopen]; simp
      · cases h5
        refine ⟨?_, by simp, by simp, by simpa [hf.2.2.1] using h4⟩
        simp [hf.1, hopen]
    · rename_i via hm
      cases h
      refine ⟨fun _ => ⟨via, σ.err, rfl⟩, by simp, ?_, by simpa using h4⟩
      intro r hr
      simp only [MainPc.returned.injEq] at hr
      rw [hr.1] at hm
      exact h2 hm
    · cases h
  | read r => simp [mainStep] at h
  | handler i => simp [mainStep] at h


/-- Every step of the Session preserves `QueueInv`. -/
theorem step_QueueInv (c : Collab Req Cert Payload) (s : Socket)
    (σ σ1 : State Req Payload) (ev : Event) (h : step c s σ ev = some σ1)
    (hinv : QueueInv σ) : QueueInv σ1 := by
  unfold step at h
  split at h
  · cases h
  · cases ev with
    | read r =>
      have hf := readerStep_frame σ σ1 r h
      unfold QueueInv at *
      rw [hf.1, hf.2.1, hf.2.2.1]
      exact hinv
    | handler i =>
      have hf := handlerStep_frame c s σ σ1 i h
      unfold QueueInv at *
      rw [hf.1, hf.2.1, hf.2.2.1]
      exact hinv
    | recvQueue w => exact mainStep_QueueInv c s σ σ1 _ h hinv
    | tick w => exact mainStep_QueueInv c s σ σ1 _ h hinv
    | statusTick => exact mainStep_QueueInv c s σ σ1 _ h hinv
    | recvErr => exact mainStep_QueueInv c s σ σ1 _ h hinv
    | main => exact mainStep_QueueInv c s σ σ1 _ h hinv

/-- Every run of the Session preserves `QueueInv`. -/
theorem run_QueueInv (c : Collab Req Cert Payload) (s : Socket) (evs : List Event) :
    ∀ σ σ1 : State Req Payload, run c s σ evs = some σ1 → QueueInv σ → QueueInv σ1 := by
  induction evs with
  | nil =>
    intro σ σ1 h hinv
    simp only [run, Option.some.injEq] at h
    exact h ▸ hinv
  | cons ev evs ih =>
    intro σ σ1 h hinv
    simp only [run, Option.bind_eq_some] at h
    obtain ⟨σ2, h2, h3⟩ := h
    exact ih σ2 σ1 h3 (step_QueueInv c s σ σ2 ev h2 hinv)

/-- C9: in every execution of `stream` from a successful dial, the queue is
open as long as `stream` has not returned; the loop never stands at the
`return` of the queue-closed branch, no close frame is ever written, and
every return went through the write, ping, status or reader branch. -/
theorem queue_open_while_looping (c : Collab Req Cert Payload) (s : Socket)
    (evs : List Event) (σ : State Req Payload)
    (h : run c s (connected s) evs = some σ) :
    ((∀ b r, σ.main ≠ .returned b r) → σ.closed = false) ∧
    σ.main ≠ .returning .queueClosed ∧
    Wire.close ∉ σ.wire ∧
    (∀ b r, σ.main = .returned b r →
      b = .write ∨ b = .ping ∨ b = .status ∨ b = .reader) := by
  have hinv : QueueInv σ := by
    refine run_QueueInv c s evs (connected s) σ h ?_
    simp [QueueInv, connected]
  obtain ⟨h1, h2, h3, h4⟩ := hinv
  refine ⟨?_, h2, h4, ?_⟩
  · intro hne
    cases hcl : σ.closed
    · rfl
    · obtain ⟨b, r, hb⟩ := h1 hcl
      exact absurd hb (hne b r)
  · intro b r hb
    cases b with
    | queueClosed => exact absurd hb (h3 r)
    | write => simp
    | ping => simp
    | status => simp
    | reader => simp

/-- Witness of `queue_open_while_looping`: a run in which a status envelope
is written, the ping fails and `stream` returns. -/
theorem queue_open_while_looping_witness :
    run demoCollab demoSocket (connected demoSocket)
      [.statusTick, .main, .recvQueue none, .main, .tick (some (.lib "broken pipe")), .main,
       .main] =
      some { connected demoSocket with
        err := some (.lib "broken pipe"), closed := true,
        wire := [.json "status", .ping],
        main := .returned .ping (some (.lib "broken pipe")) } ∧
    Wire.close ∉ ([.json "status", .ping] : List (Wire String)) :=
  have h : run demoCollab demoSocket (connected demoSocket)
      [.statusTick, .main, .recvQueue none, .main, .tick (some (.lib "broken pipe")), .main,
       .main] =
      some { connected demoSocket with
        err := some (.lib "broken pipe"), closed := true,
        wire := [.json "status", .ping],
        main := .returned .ping (some (.lib "broken pipe")) } := by decide
  ⟨h, (queue_open_while_looping demoCollab demoSocket _ _ h).2.2.1⟩


/-- In a blocked state no event of the outbound loop is enabled. -/
theorem mainStep_of_Blocked (c : Collab Req Cert Payload) (s : Socket)
    (q : List Payload) (w : List (Wire Payload)) (ec : Option GoError) (p : Payload)
    (σ : State Req Payload) (hq : q.length = queueCap) (hb : Blocked q w ec p σ)
    (ev : Event) : mainStep c s σ ev = none := by
  obtain ⟨hm, hqu, hcl, _, _⟩ := hb
  cases ev <;> simp [mainStep, hm, sendQueue, hcl, hqu, hq]

/-- Every step of the Session preserves `Blocked`. -/
theorem step_Blocked (c : Collab Req Cert Payload) (s : Socket)
    (q : List Payload) (w : List (Wire Payload)) (ec : Option GoError) (p : Payload)
    (σ σ1 : State Req Payload) (hq : q.length = queueCap) (hb : Blocked q w ec p σ)
    (ev : Event) (h : step c s σ ev = some σ1) : Blocked q w ec p σ1 := by
  have hmain := mainStep_of_Blocked c s q w ec p σ hq hb
  obtain ⟨hm, hqu, hcl, hw, he⟩ := hb
  unfold step at h
  split at h
  · cases h
  · cases ev with
    | read r =>
      have hf := readerStep_frame σ σ1 r h
      exact ⟨hf.2.1.trans hm, hf.2.2.2.1.trans hqu, hf.1.trans hcl, hf.2.2.1.trans hw,
        fun e hec => hf.2.2.2.2 e (he e hec)⟩
    | handler i =>
      have hf := handlerStep_frame c s σ σ1 i h
      refine ⟨hf.2.1.trans hm, ?_, hf.1.trans hcl, hf.2.2.1.trans hw,
        fun e hec => hf.2.2.2.1.trans (he e hec)⟩
      rcases hf.2.2.2.2 hcl with h1 | h1
      · exact h1.trans hqu
      · rw [hqu, hq] at h1; exact absurd h1 (lt_irrefl _)
    | recvQueue x => exact absurd (hmain _ ▸ h : (none : Option (State Req Payload)) = some σ1) (by simp)
    | tick x => exact absurd (hmain _ ▸ h : (none : Option (State Req Payload)) = some σ1) (by simp)
    | statusTick => exact absurd (hmain _ ▸ h : (none : Option (State Req Payload)) = some σ1) (by simp)
    | recvErr => exact absurd (hmain _ ▸ h : (none : Option (State Req Payload)) = some σ1) (by simp)
    | main => exact absurd (hmain _ ▸ h : (none : Option (State Req Payload)) = some σ1) (by simp)

/-- Every run of the Session preserves `Blocked`. -/
theorem run_Blocked (c : Collab Req Cert Payload) (s : Socket)
    (q : List Payload) (w : List (Wire Payload)) (ec : Option GoError) (p : Payload)
    (hq : q.length = queueCap) (evs : List Event) :
    ∀ σ σ1 : State Req Payload, Blocked q w ec p σ → run c s σ evs = some σ1 →
      Blocked q w ec p σ1 := by
  induction evs with
  | nil =>
    intro σ σ1 hb h
    simp only [run, Option.some.injEq] at h
    exact h ▸ hb
  | cons ev evs ih =>
    intro σ σ1 hb h
    simp only [run, Option.bind_eq_some] at h
    obtain ⟨σ2, h2, h3⟩ := h
    exact ih σ2 σ1 (step_Blocked c s q w ec p σ σ2 hq hb ev h2) h3

/-- C10: in a state of an execution of `stream` in which the queue holds 50
envelopes and the `select` takes the status tick with an envelope `p` built,
the loop stays at the send of line 184 whatever the other goroutines do: the
queue and the frames written stay as they were (nothing is dequeued, written
or pinged), an error on `errChan` stays there unread, `stream` does not
return, and no event of the loop is enabled. -/
theorem status_tick_on_full_queue_blocks (c : Collab Req Cert Payload) (s : Socket)
    (evs0 evs : List Event) (σ σ' : State Req Payload) (p : Payload)
    (hreach : run c s (connected s) evs0 = some σ)
    (hfull : σ.queue.length = queueCap) (hsel : σ.main = .select)
    (hp : c.GetStatusPayload s.Token s.Secret s.Serial = .ret (.ok p))
    (hrun : run c s σ (.statusTick :: evs) = some σ') :
    σ'.main = .statusSend p ∧ σ'.queue = σ.queue ∧ σ'.wire = σ.wire ∧
    (∀ e, σ.errChan = some e → σ'.errChan = some e) ∧
    (∀ b r, σ'.main ≠ .returned b r) ∧
    ∀ ev, mainStep c s σ' ev = none := by
  have hinv : QueueInv σ :=
    run_QueueInv c s evs0 (connected s) σ hreach (by simp [QueueInv, connected])
  have hopen : σ.closed = false := by
    cases hcl : σ.closed
    · rfl
    · obtain ⟨b, r, hb⟩ := hinv.1 hcl
      rw [hsel] at hb; cases hb
  simp only [run, Option.bind_eq_some] at hrun
  obtain ⟨σ1, h1, h2⟩ := hrun
  have hb1 : Blocked σ.queue σ.wire σ.errChan p σ1 := by
    unfold step at h1
    split at h1
    · cases h1
    · simp only [mainStep, hsel, hp, Option.some.injEq] at h1
      cases h1
      exact ⟨rfl, rfl, hopen, rfl, fun e he => he⟩
  have hb := run_Blocked c s σ.queue σ.wire σ.errChan p hfull evs σ1 σ' hb1 h2
  refine ⟨hb.1, hb.2.1, hb.2.2.2.1, hb.2.2.2.2, ?_, mainStep_of_Blocked c s _ _ _ p σ' hfull hb⟩
  intro b r hr
  rw [hb.1] at hr; cases hr

/-- Witness of `status_tick_on_full_queue_blocks`: after fifty status
envelopes were enqueued and none written, the next status tick blocks the
loop; a frame that arrives afterwards is handled up to its own send, the
reader puts its error on `errChan`, and still no event of the loop is
enabled. -/
theorem status_tick_on_full_queue_blocks_witness :
    run demoCollab demoSocket (connected demoSocket) fillQueue = some fullState ∧
    run demoCollab demoSocket fullState
        [.statusTick, .read (.ret (.ok [1])), .handler 0, .handler 0,
         .read (.ret (.error (.lib "EOF")))] = some blockedState ∧
    blockedState.main = .statusSend "status" ∧
    blockedState.queue = fullState.queue ∧
    ∀ ev, mainStep demoCollab demoSocket blockedState ev = none := by
  have h0 : run demoCollab demoSocket (connected demoSocket) fillQueue = some fullState := by
    decide
  have h1 : run demoCollab demoSocket fullState
      [.statusTick, .read (.ret (.ok [1])), .handler 0, .handler 0,
       .read (.ret (.error (.lib "EOF")))] = some blockedState := by decide
  have h := status_tick_on_full_queue_blocks demoCollab demoSocket fillQueue _ _ _ "status"
    h0 (by decide) rfl rfl h1
  exact ⟨h0, h1, h.1, h.2.1, h.2.2.2.2.2⟩

/-! ### The handler among the other goroutines -/

/-- A step of the outbound loop leaves the handler goroutines where they
stand. -/
theorem mainStep_handlers (c : Collab Req Cert Payload) (s : Socket)
    (σ σ1 : State Req Payload) (ev : Event) (h : mainStep c s σ ev = some σ1) :
    σ1.handlers = σ.handlers := by
  cases ev with
  | recvQueue w =>
    simp only [mainStep] at h
    split at h
    · cases h; rfl
    · split at h
      · cases h; rfl
      · cases h
    · cases h
  | tick w =>
    simp only [mainStep] at h
    split at h
    · cases h; rfl
    · cases h
  | statusTick =>
    simp only [mainStep] at h
    split at h
    · split at h <;> (cases h; rfl)
    · cases h
  | recvErr =>
    simp only [mainStep] at h
    split at h
    · cases h; rfl
    · cases h
  | main =>
    simp only [mainStep] at h
    split at h
    · split at h <;> (cases h; rfl)
    · split at h <;> (cases h; rfl)
    · simp only [Option.map_eq_some'] at h
      obtain ⟨σ2, hs, h5⟩ := h
      have hf := sendQueue_frame _ _ _ hs
      split at h5
      · cases h5; exact hf.2.2.2.2.1
      · cases h5; exact hf.2.2.2.2.1
    · cases h; rfl
    · cases h
  | read r => simp [mainStep] at h
  | handler i => simp [mainStep] at h

/-- A step of another goroutine leaves handler goroutine `i` where it
stands. -/
theorem step_other_handler (c : Collab Req Cert Payload) (s : Socket)
    (σ σ1 : State Req Payload) (ev : Event) (i : Nat) (pc : HandlerPc Req Payload)
    (hev : ev ≠ .handler i) (h : step c s σ ev = some σ1)
    (hi : σ.handlers[i]? = some pc) : σ1.handlers[i]? = some pc := by
  have hlt := lt_length_of_getElem? _ _ _ hi
  unfold step at h
  split at h
  · cases h
  · cases ev with
    | read r =>
      simp only [readerStep] at h
      split at h
      · split at h
        · simp only [recover] at h
          split at h <;> (cases h; exact hi)
        · split at h
          · cases h; exact hi
          · cases h
        · cases h
          simp [List.getElem?_append_left hlt, hi]
      · cases h
    | handler j =>
      have hne : j ≠ i := fun hji => hev (by rw [hji])
      simp only [handlerStep] at h
      split at h
      · cases h
      · simp only [Option.map_eq_some'] at h
        obtain ⟨⟨σ2, pc2⟩, h2, h3⟩ := h
        cases h3
        have hf := handlerBody_frame c s σ σ2 _ pc2 h2
        simp [hf.2.2.2.2.1, List.getElem?_set_ne hne, hi]
    | recvQueue w => rw [mainStep_handlers c s σ σ1 _ h]; exact hi
    | tick w => rw [mainStep_handlers c s σ σ1 _ h]; exact hi
    | statusTick => rw [mainStep_handlers c s σ σ1 _ h]; exact hi
    | recvErr => rw [mainStep_handlers c s σ σ1 _ h]; exact hi
    | main => rw [mainStep_handlers c s σ σ1 _ h]; exact hi

/-- A run of the other goroutines leaves handler goroutine `i` where it
stands. -/
theorem run_other_handler (c : Collab Req Cert Payload) (s : Socket) (i : Nat)
    (pc : HandlerPc Req Payload) (evs : List Event) :
    ∀ σ σ1 : State Req Payload, Event.handler i ∉ evs → run c s σ evs = some σ1 →
      σ.handlers[i]? = some pc → σ1.handlers[i]? = some pc := by
  induction evs with
  | nil =>
    intro σ σ1 _ h hi
    simp only [run, Option.some.injEq] at h
    exact h ▸ hi
  | cons ev evs ih =>
    intro σ σ1 hmem h hi
    simp only [run, Option.bind_eq_some] at h
    obtain ⟨σ2, h2, h3⟩ := h
    have hev : ev ≠ .handler i := fun he => hmem (by simp [he])
    have hrest : Event.handler i ∉ evs := fun he => hmem (by simp [he])
    exact ih σ2 σ1 hrest h3 (step_other_handler c s σ σ2 ev i pc hev h2 hi)

/-- Assigning nil to `err` never makes the outbound loop return: a step of
the loop that reaches a `return` from the state with `err` nil reaches the
same `return` from the state with `err` as it was. -/
theorem mainStep_returning_of_err_nil (c : Collab Req Cert Payload) (s : Socket)
    (σ τ : State Req Payload) (hs : List (HandlerPc Req Payload)) (ev : Event) (via : Branch)
    (h : mainStep c s { σ with err := none, handlers := hs } ev = some τ)
    (hret : τ.main = .returning via) :
    ∃ τ0, mainStep c s σ ev = some τ0 ∧ τ0.main = .returning via := by
  cases ev with
  | recvQueue w =>
    simp only [mainStep] at h ⊢
    split at h
    · cases h; simp at hret
    · rename_i hm hq
      split at h
      · rename_i hcl
        cases h
        try simp only at hm hq hcl hret
        simp [hm, hq, hcl, hret]
      · cases h
    · cases h
  | tick w =>
    simp only [mainStep] at h
    split at h
    · cases h; simp at hret
    · cases h
  | statusTick =>
    simp only [mainStep] at h ⊢
    split at h
    · rename_i hm
      split at h
      · cases h; simp [hm] at hret
      · rename_i e hg
        cases h
        try simp only at hret
        simp [hm, hg, hret]
      · cases h; simp at hret
    · cases h
  | recvErr =>
    simp only [mainStep] at h ⊢
    split at h
    · rename_i e hm he
      cases h
      try simp only at hm he hret
      simp [hm, he, hret]
    · cases h
  | main =>
    simp only [mainStep] at h
    split at h
    · simp at h; cases h; simp at hret
    · simp at h; cases h; simp at hret
    · rename_i p hm
      simp only [Option.map_eq_some'] at h
      obtain ⟨σ2, hsq, h5⟩ := h
      have hm2 : σ2.main = .statusSend p := (sendQueue_frame _ _ _ hsq).2.1.trans hm
      split at h5
      · rw [← h5, hm2] at hret; cases hret
      · rw [← h5] at hret; simp at hret
    · cases h; simp at hret
    · cases h
  | read r => simp [mainStep] at h
  | handler i => simp [mainStep] at h


/-- C2, amended: for a frame that decodes to `(msgId, "ssh_certificate",
data)` with data non-nil, whose data unmarshals into `req` and for which
`Sign(Serial, req)` returns `cert`, and whatever the other goroutines do
between the statements of its handler: line 114 leaves `err` nil and enqueues
nothing; if line 115 then finds `err` still nil, the handler calls `Sign`
with the Serial and `req`, and when `MarshalPayload(msgId, Token, Secret,
"ssh_certificate", SshResponse{cert})` returns an envelope `resp`, its send,
made when the queue is open and has room, appends exactly `resp` to the
queue, after which the handler has ended and makes no further step; when
`MarshalPayload` returns an error, the handler logs it, enqueues nothing and
has ended. -/
theorem handler_enqueues_response (c : Collab Req Cert Payload) (s : Socket)
    (σ : State Req Payload) (i : Nat) (m d : Bytes) (msgId : String) (req : Req) (cert : Cert)
    (hc : σ.crashed = none) (hi : σ.handlers[i]? = some (.start m))
    (hdec : c.UnmarshalPayload s.Token s.Secret m =
      .ret (.ok (msgId, "ssh_certificate", some d)))
    (hjson : c.jsonUnmarshal d = .ret (req, none))
    (hsign : c.Sign s.Serial req = .ret (.ok cert)) :
    ∃ σ1, step c s σ (.handler i) = some σ1 ∧
      σ1.queue = σ.queue ∧ σ1.log = σ.log ∧ σ1.signed = σ.signed ∧ σ1.err = none ∧
      ∀ evs1 σ2, Event.handler i ∉ evs1 → run c s σ1 evs1 = some σ2 →
        σ2.crashed = none → σ2.err = none →
        (∀ resp, c.MarshalPayload msgId s.Token s.Secret "ssh_certificate"
            { Certificate := cert } = .ret (.ok resp) →
          ∃ σ3, step c s σ2 (.handler i) = some σ3 ∧
            σ3.queue = σ2.queue ∧ σ3.log = σ2.log ∧
            σ3.signed = σ2.signed ++ [(s.Serial, req)] ∧
            ∀ evs2 σ4, Event.handler i ∉ evs2 → run c s σ3 evs2 = some σ4 →
              σ4.crashed = none → σ4.closed = false → σ4.queue.length < queueCap →
              ∃ σ5, step c s σ4 (.handler i) = some σ5 ∧
                σ5.queue = σ4.queue ++ [resp] ∧ σ5.log = σ4.log ∧
                σ5.signed = σ4.signed ∧ σ5.crashed = none ∧
                σ5.handlers[i]? = some .done ∧
                step c s σ5 (.handler i) = none) ∧
        (∀ e, c.MarshalPayload msgId s.Token s.Secret "ssh_certificate"
            { Certificate := cert } = .ret (.error e) →
          ∃ σ3, step c s σ2 (.handler i) = some σ3 ∧
            σ3.queue = σ2.queue ∧
            σ3.log = σ2.log ++ [errorEntry e "socket: Marshal payload error"] ∧
            σ3.handlers[i]? = some .done ∧
            step c s σ3 (.handler i) = none) := by
  have hlt := lt_length_of_getElem? _ _ _ hi
  refine ⟨{ σ with err := none, handlers := σ.handlers.set i (.unmarshalled msgId req) },
    by simp [step, hc, handlerStep, hi, handlerBody, recover, hdec, hjson],
    rfl, rfl, rfl, rfl, ?_⟩
  intro evs1 σ2 hmem1 hrun1 hc2 herr2
  have hi2 : σ2.handlers[i]? = some (.unmarshalled msgId req) :=
    run_other_handler c s i _ evs1 _ σ2 hmem1 hrun1 (by simp [List.getElem?_set, hlt])
  have hlt2 := lt_length_of_getElem? _ _ _ hi2
  constructor
  · intro resp hmar
    refine ⟨{ σ2 with signed := σ2.signed ++ [(s.Serial, req)],
                      handlers := σ2.handlers.set i (.sending resp) },
      by simp [step, hc2, handlerStep, hi2, handlerBody, herr2, hsign, hmar],
      rfl, rfl, rfl, ?_⟩
    intro evs2 σ4 hmem2 hrun2 hc4 hopen hroom
    have hi4 : σ4.handlers[i]? = some (.sending resp) :=
      run_other_handler c s i _ evs2 _ σ4 hmem2 hrun2 (by simp [List.getElem?_set, hlt2])
    have hlt4 := lt_length_of_getElem? _ _ _ hi4
    refine ⟨{ σ4 with queue := σ4.queue ++ [resp], handlers := σ4.handlers.set i .done },
      by simp [step, hc4, handlerStep, hi4, handlerBody, sendQueue, hopen, hroom],
      rfl, rfl, rfl, hc4, by simp [List.getElem?_set, hlt4], ?_⟩
    simp [step, hc4, handlerStep, handlerBody, List.getElem?_set, hlt4]
  · intro e hmar
    refine ⟨{ σ2 with signed := σ2.signed ++ [(s.Serial, req)],
                      log := σ2.log ++ [errorEntry e "socket: Marshal payload error"],
                      handlers := σ2.handlers.set i .done },
      by simp [step, hc2, handlerStep, hi2, handlerBody, herr2, hsign, hmar],
      rfl, rfl, by simp [List.getElem?_set, hlt2], ?_⟩
    simp [step, hc2, handlerStep, handlerBody, List.getElem?_set, hlt2]

/-- Witness of `handler_enqueues_response`: between the statements of the
handler of frame `[1]` the reader spawns a handler for another frame and the
loop enqueues a status envelope; the handler then appends its response, with
the id `id1`, behind it. -/
theorem handler_enqueues_response_witness :
    run demoCollab demoSocket (oneFrame [1])
      [.handler 0, .read (.ret (.ok [9])), .handler 0, .statusTick, .main] =
      some statusQueued ∧
    ∃ σ5, step demoCollab demoSocket statusQueued (.handler 0) = some σ5 ∧
      σ5.queue = ["status", "id1:ssh_certificate:serial/req1"] ∧
      σ5.signed = [("serial", "req1")] ∧
      σ5.handlers[0]? = some .done ∧
      step demoCollab demoSocket σ5 (.handler 0) = none := by
  obtain ⟨σ1, h1, _, _, _, _, hrest⟩ :=
    handler_enqueues_response demoCollab demoSocket (oneFrame [1]) 0 [1] [1] "id1" "req1"
      "serial/req1" rfl rfl rfl rfl rfl
  have e1 : σ1 = afterLine114 :=
    Option.some.inj (h1.symm.trans (by decide))
  subst e1
  obtain ⟨σ3, h3, _, _, _, hrest2⟩ :=
    (hrest [.read (.ret (.ok [9]))] otherFrameRead (by decide) (by decide) rfl rfl).1
      "id1:ssh_certificate:serial/req1" rfl
  have e3 : σ3 = atSend :=
    Option.some.inj (h3.symm.trans (by decide))
  subst e3
  obtain ⟨σ5, h5, hq, _, hs, _, hd, hstop⟩ :=
    hrest2 [.statusTick, .main] statusQueued (by decide) (by decide) rfl rfl (by decide)
  exact ⟨by decide, σ5, h5, hq, hs, hd, hstop⟩

/-- C4: a handler whose frame fails to decode logs exactly one error record
and ends; one whose frame decodes to another type, or to nil data, ends
without a record; both leave `err`, the queue, the connection, both channels,
the outbound loop and the reader as they were. A handler whose frame decodes
to a request that unmarshals assigns nil to `err` at line 114 and changes
nothing else, and that assignment makes no step of the loop reach a `return`
that it would not reach without it; then, whatever the other goroutines do
in between, its next step either calls `Sign`, and when `Sign` returns an
error it logs exactly one error record, leaves `err` and all the rest as
they were, enqueues nothing and has ended; or, `err` being non-nil at line
115, it does not call `Sign` at all. The process has not crashed in any of
these cases. -/
theorem handler_failure_sends_nothing (c : Collab Req Cert Payload) (s : Socket)
    (σ : State Req Payload) (i : Nat) (m : Bytes)
    (hc : σ.crashed = none) (hi : σ.handlers[i]? = some (.start m)) :
    (∀ e, c.UnmarshalPayload s.Token s.Secret m = .ret (.error e) →
      ∃ σ', step c s σ (.handler i) = some σ' ∧ DroppedBy i σ σ' ∧ σ'.err = σ.err ∧
        σ'.log = σ.log ++ [errorEntry e "socket: Unmarshal payload error"] ∧
        step c s σ' (.handler i) = none) ∧
    (∀ msgId msgType data,
      c.UnmarshalPayload s.Token s.Secret m = .ret (.ok (msgId, msgType, data)) →
      msgType ≠ "ssh_certificate" ∨ data = none →
      ∃ σ', step c s σ (.handler i) = some σ' ∧ DroppedBy i σ σ' ∧ σ'.err = σ.err ∧
        σ'.log = σ.log ∧ step c s σ' (.handler i) = none) ∧
    (∀ msgId d req e,
      c.UnmarshalPayload s.Token s.Secret m =
        .ret (.ok (msgId, "ssh_certificate", some d)) →
      c.jsonUnmarshal d = .ret (req, none) →
      c.Sign s.Serial req = .ret (.error e) →
      step c s σ (.handler i) =
        some { σ with err := none, handlers := σ.handlers.set i (.unmarshalled msgId req) } ∧
      (∀ ev τ via,
        mainStep c s
          { σ with err := none, handlers := σ.handlers.set i (.unmarshalled msgId req) } ev =
          some τ →
        τ.main = .returning via →
        ∃ τ0, mainStep c s σ ev = some τ0 ∧ τ0.main = .returning via) ∧
      ∀ evs σ2, Event.handler i ∉ evs →
        run c s { σ with err := none, handlers := σ.handlers.set i (.unmarshalled msgId req) }
          evs = some σ2 →
        σ2.crashed = none →
        ∃ σ3, step c s σ2 (.handler i) = some σ3 ∧
          step c s σ3 (.handler i) = none ∧
          (σ2.err = none →
            DroppedBy i σ2 σ3 ∧ σ3.err = σ2.err ∧
            σ3.signed = σ2.signed ++ [(s.Serial, req)] ∧
            σ3.log = σ2.log ++ [errorEntry e "socket: Sign payload error"]) ∧
          (σ2.err ≠ none → σ3.signed = σ2.signed)) := by
  have hlt := lt_length_of_getElem? _ _ _ hi
  refine ⟨?_, ?_, ?_⟩
  · intro e hdec
    simp [step, hc, handlerStep, hi, handlerBody, recover, hdec, DroppedBy,
      List.getElem?_set, hlt]
  · intro msgId msgType data hdec hother
    rcases hother with hty | hdata
    · simp [step, hc, handlerStep, hi, handlerBody, recover, hdec, DroppedBy, hty,
        List.getElem?_set, hlt]
    · subst hdata
      by_cases hty : msgType = "ssh_certificate" <;>
        simp [step, hc, handlerStep, hi, handlerBody, recover, hdec, DroppedBy, hty,
          List.getElem?_set, hlt]
  · intro msgId d req e hdec hjson hsign
    refine ⟨by simp [step, hc, handlerStep, hi, handlerBody, recover, hdec, hjson],
      fun ev τ via h hret => mainStep_returning_of_err_nil c s σ τ _ ev via h hret, ?_⟩
    intro evs σ2 hmem hrun hc2
    have hi2 : σ2.handlers[i]? = some (.unmarshalled msgId req) :=
      run_other_handler c s i _ evs _ σ2 hmem hrun (by simp [List.getElem?_set, hlt])
    have hlt2 := lt_length_of_getElem? _ _ _ hi2
    cases herr : σ2.err with
    | none =>
      simp [step, hc2, handlerStep, hi2, handlerBody, herr, hsign, DroppedBy,
        List.getElem?_set, hlt2]
    | some e2 =>
      simp [step, hc2, handlerStep, hi2, handlerBody, herr, List.getElem?_set, hlt2]

/-- Witness of `handler_failure_sends_nothing`: the empty frame, which fails
to decode; and frame `[3]`, whose request `Sign` refuses, with a successful
ping between lines 114 and 115 of its handler. -/
theorem handler_failure_sends_nothing_witness :
    (∃ σ', step demoCollab demoSocket (oneFrame []) (.handler 0) = some σ' ∧
      DroppedBy 0 (oneFrame []) σ' ∧ σ'.err = (oneFrame []).err ∧
      σ'.log = (oneFrame []).log ++
        [errorEntry (.lib "bad envelope") "socket: Unmarshal payload error"] ∧
      step demoCollab demoSocket σ' (.handler 0) = none) ∧
    run demoCollab demoSocket (oneFrame [3]) [.handler 0, .tick none, .main] =
      some pingedBetween ∧
    (∃ σ3, step demoCollab demoSocket pingedBetween (.handler 0) = some σ3 ∧
      DroppedBy 0 pingedBetween σ3 ∧ σ3.err = none ∧
      σ3.signed = [("serial", "req3")] ∧
      σ3.log = pingedBetween.log ++
        [errorEntry (.lib "sign failed") "socket: Sign payload error"]) := by
  have hA := (handler_failure_sends_nothing demoCollab demoSocket (oneFrame []) 0 [] rfl
    rfl).1 (.lib "bad envelope") rfl
  have hC := (handler_failure_sends_nothing demoCollab demoSocket (oneFrame [3]) 0 [3] rfl
    rfl).2.2 "id3" [3] "req3" (.lib "sign failed") rfl rfl rfl
  obtain ⟨σ3, h3, _, hnil, _⟩ := hC.2.2 [.tick none, .main] pingedBetween (by decide)
    (by decide) rfl
  obtain ⟨hd, he, hs, hl⟩ := hnil rfl
  exact ⟨hA, by decide, σ3, h3, hd, he, hs, hl⟩

/-! ### `Run` -/

/-- After `3 * n` statements `Run` stands at the call of `stream` again, with
`n` iterations behind it. -/
theorem runSteps_iterations (outcome : Nat → Option GoError) (n : Nat) :
    runSteps outcome (3 * n) =
      { pc := .callStream, calls := n, trace := iterations outcome n } := by
  induction n with
  | zero => simp [runSteps, runInit, iterations]
  | succ n ih =>
    have h3 : 3 * (n + 1) = 3 * n + 1 + 1 + 1 := by ring
    rw [h3]
    simp only [runSteps, ih]
    cases ho : outcome n <;>
      simp [runStep, ho, iterations, iteration, List.range_succ, second]

/-- The loop of `Run` taken alone has no exit: as long as every call of
`stream` returns and the process lives, after `3 * n` statements `Run` has
completed `n` iterations and stands again at the call of `stream`; an
iteration whose Session returned an error called `stream`, logged that error
exactly once, at error severity, and slept one second; and the next
statement is call `n` of `stream`. -/
theorem Run_alone_retries (outcome : Nat → Option GoError) (n : Nat) :
    runSteps outcome (3 * n) =
      { pc := .callStream, calls := n,
        trace := (List.range n).flatMap fun k => iteration k (outcome k) } ∧
    (∀ k e, outcome k = some e →
      iteration k (outcome k) =
        [.stream k,
         .log { level := .error, fields := [("error", .err e)],
                msg := "socket: Socket stream error" },
         .sleep 1000000000]) ∧
    runSteps outcome (3 * n + 1) =
      { pc := .testErr (outcome n), calls := n + 1,
        trace := ((List.range n).flatMap fun k => iteration k (outcome k)) ++ [.stream n] } := by
  refine ⟨runSteps_iterations outcome n, ?_, ?_⟩
  · intro k e he
    simp [he, iteration, errorEntry, second]
  · simp only [runSteps, runSteps_iterations, runStep, iterations]

/-- C8 fails on the code. The first Session ends on a failed ping while the
handler of frame `[1]` stands at its send; `stream` returns, `Run` logs the
error once and sleeps; the handler then sends on the queue that the deferred
`close(queue)` has closed, and its panic, which nothing recovers, ends the
process: `Run` has called `stream` once, and no event, a second call of
`stream` included, is possible any more. -/
theorem Run_stopped_by_leaked_handler :
    (procRun (fun _ => demoEnv) (fun _ _ _ => none) demoCollab demoSocket procInit
        leakedHandler).map (fun π => (π.crashed, π.pc, π.calls, π.trace)) =
      some (some "send on closed channel", .sleep, 1,
        [.stream 0, .log (errorEntry (.lib "broken pipe") "socket: Socket stream error")]) ∧
    ∀ ev, procRun (fun _ => demoEnv) (fun _ _ _ => none) demoCollab demoSocket procInit
        (leakedHandler ++ [ev]) = none := by
  refine ⟨by decide, fun ev => ?_⟩
  cases ev <;> rfl

/-! ### `fileSender.send` -/

/-- The size `send` reads is the size the log file had when `send` was
called. -/
theorem size_openFile_stat (fs : FileSys) (path : String) :
    (FileSys.call (fs.openFile path) (.stat path)).size path = fs.size path := by
  simp [FileSys.size, FileSys.call, FileSys.openFile]

/-- Below the threshold, and with no call failing, `send` opens, stats,
appends and closes. -/
theorem send_below_threshold (LogPath LogPath2 : String) (formatPlain : Entry → Bytes)
    (fs : FileSys) (entry : Entry)
    (hsize : fs.size LogPath < 5000000) :
    send LogPath LogPath2 formatPlain noFaults fs entry =
      (none, ((FileSys.call (fs.openFile LogPath) (.stat LogPath)).append LogPath
        (formatPlain entry)).call (.close LogPath)) := by
  have h : ¬ ((FileSys.call (fs.openFile LogPath) (.stat LogPath)).size LogPath ≥ 5000000) := by
    rw [size_openFile_stat]; omega
  simp only [send, noFaults, sendWrite, if_neg h]

/-- At or over the threshold, and with no call failing, `send` removes the
backup, renames the log file to it, opens a fresh log file and writes there. -/
theorem send_at_threshold (LogPath LogPath2 : String) (formatPlain : Entry → Bytes)
    (fs : FileSys) (entry : Entry)
    (hsize : 5000000 ≤ fs.size LogPath) :
    send LogPath LogPath2 formatPlain noFaults fs entry =
      (none, ((FileSys.call (((FileSys.call (fs.openFile LogPath) (.stat LogPath)).remove none
        LogPath2).rename LogPath LogPath2) (.close LogPath)).openFile LogPath).append LogPath
        (formatPlain entry) |>.call (.close LogPath)) := by
  have h : (FileSys.call (fs.openFile LogPath) (.stat LogPath)).size LogPath ≥ 5000000 := by
    rw [size_openFile_stat]; omega
  simp only [send, noFaults, sendWrite, if_pos h]

/-- The length of `filler`. -/
theorem filler_length : filler.length = 4999999 :=
  List.length_replicate _ _

/-- C7, as stated, fails: the log file holds 4,999,999 bytes and the line is
one byte long, so the line takes it to the threshold; yet the call of `send`
makes no rename: the line is appended to the old content, the log path does
not hold a fresh file with just the line, and the backup path still holds the
older backup, not the old log content. -/
theorem send_no_rotation_on_crossing :
    nearlyFull.size "hsm.log" < 5000000 ∧
    nearlyFull.size "hsm.log" + (oneByteLine demoEntry).length ≥ 5000000 ∧
    (send "hsm.log" "hsm.log.1" oneByteLine noFaults nearlyFull demoEntry).2.calls =
      [.openFile "hsm.log", .stat "hsm.log", .write "hsm.log" [10], .close "hsm.log"] ∧
    (send "hsm.log" "hsm.log.1" oneByteLine noFaults nearlyFull demoEntry).2.files "hsm.log" =
      some (filler ++ [10]) ∧
    (send "hsm.log" "hsm.log.1" oneByteLine noFaults nearlyFull demoEntry).2.files "hsm.log" ≠
      some (oneByteLine demoEntry) ∧
    (send "hsm.log" "hsm.log.1" oneByteLine noFaults nearlyFull demoEntry).2.files "hsm.log.1" =
      some [1] ∧
    (send "hsm.log" "hsm.log.1" oneByteLine noFaults nearlyFull demoEntry).2.files "hsm.log.1" ≠
      nearlyFull.files "hsm.log" := by
  have hsz : nearlyFull.size "hsm.log" = 4999999 := by
    simp [nearlyFull, FileSys.size, filler_length]
  have hlt : nearlyFull.size "hsm.log" < 5000000 := by rw [hsz]; omega
  rw [send_below_threshold _ _ _ _ _ hlt]
  refine ⟨hlt, ?_, ?_, ?_, ?_, ?_, ?_⟩
  · rw [hsz]; simp [oneByteLine]
  · simp [FileSys.call, FileSys.append, FileSys.openFile, nearlyFull, oneByteLine]
  · simp [FileSys.call, FileSys.append, FileSys.openFile, nearlyFull, oneByteLine]
  · simp [FileSys.call, FileSys.append, FileSys.openFile, nearlyFull, oneByteLine]
    intro h
    have := congrArg List.length h
    simp [filler_length] at this
  · simp [FileSys.call, FileSys.append, FileSys.openFile, nearlyFull]
  · simp [FileSys.call, FileSys.append, FileSys.openFile, nearlyFull]
    intro h
    have := congrArg List.length h
    simp [filler_length] at this

/-- C7, amended: with distinct paths and no failing call, for a log file of
size below 5,000,000 and a line that takes it to 5,000,000 or over, the call
of `send` with that line only appends it and leaves the backup as it was; the
next call of `send` performs exactly one remove, rename and fresh open:
afterwards the backup path holds the old content followed by the first line,
whatever it held before, and the log path holds exactly the line of that next
call. -/
theorem send_rotates_on_next_call (LogPath LogPath2 : String) (formatPlain : Entry → Bytes)
    (fs : FileSys) (entry next : Entry) (old : Bytes)
    (hne : LogPath ≠ LogPath2) (hold : fs.files LogPath = some old)
    (hlt : old.length < 5000000)
    (hge : old.length + (formatPlain entry).length ≥ 5000000) :
    (send LogPath LogPath2 formatPlain noFaults fs entry).1 = none ∧
    (send LogPath LogPath2 formatPlain noFaults fs entry).2.files LogPath =
      some (old ++ formatPlain entry) ∧
    (send LogPath LogPath2 formatPlain noFaults fs entry).2.files LogPath2 =
      fs.files LogPath2 ∧
    (send LogPath LogPath2 formatPlain noFaults fs entry).2.calls =
      fs.calls ++ [.openFile LogPath, .stat LogPath, .write LogPath (formatPlain entry),
        .close LogPath] ∧
    (send LogPath LogPath2 formatPlain noFaults
      (send LogPath LogPath2 formatPlain noFaults fs entry).2 next).1 = none ∧
    (send LogPath LogPath2 formatPlain noFaults
      (send LogPath LogPath2 formatPlain noFaults fs entry).2 next).2.files LogPath2 =
      some (old ++ formatPlain entry) ∧
    (send LogPath LogPath2 formatPlain noFaults
      (send LogPath LogPath2 formatPlain noFaults fs entry).2 next).2.files LogPath =
      some (formatPlain next) ∧
    (send LogPath LogPath2 formatPlain noFaults
      (send LogPath LogPath2 formatPlain noFaults fs entry).2 next).2.calls =
      (send LogPath LogPath2 formatPlain noFaults fs entry).2.calls ++
        [.openFile LogPath, .stat LogPath, .remove LogPath2, .rename LogPath LogPath2,
         .close LogPath, .openFile LogPath, .write LogPath (formatPlain next),
         .close LogPath] := by
  have h1 : fs.size LogPath < 5000000 := by simpa [FileSys.size, hold] using hlt
  rw [send_below_threshold _ _ _ _ _ h1]
  have h2 : 5000000 ≤ (((FileSys.call (fs.openFile LogPath) (.stat LogPath)).append LogPath
      (formatPlain entry)).call (.close LogPath)).size LogPath := by
    simpa [FileSys.size, FileSys.call, FileSys.append, FileSys.openFile, hold] using hge
  rw [send_at_threshold _ _ _ _ _ h2]
  simp [FileSys.call, FileSys.append, FileSys.openFile, FileSys.remove, FileSys.rename, hold,
    hne, hne.symm]

/-- Witness of `send_rotates_on_next_call`: the log file of 4,999,999 bytes
and two one-byte lines. -/
theorem send_rotates_on_next_call_witness :
    (send "hsm.log" "hsm.log.1" oneByteLine noFaults
      (send "hsm.log" "hsm.log.1" oneByteLine noFaults nearlyFull demoEntry).2
      demoEntry).2.files "hsm.log.1" = some (filler ++ [10]) ∧
    (send "hsm.log" "hsm.log.1" oneByteLine noFaults
      (send "hsm.log" "hsm.log.1" oneByteLine noFaults nearlyFull demoEntry).2
      demoEntry).2.files "hsm.log" = some [10] :=
  have h := send_rotates_on_next_call "hsm.log" "hsm.log.1" oneByteLine nearlyFull demoEntry
    demoEntry (filler) (by decide) (by simp [nearlyFull])
    (by rw [filler_length]; omega) (by rw [filler_length]; simp [oneByteLine])
  ⟨h.2.2.2.2.2.1, h.2.2.2.2.2.2.1⟩

end PritunlHsm
